import Mathlib

/-!
Verification of the press-release enrichment pipeline in
`generate_newsletter.py`: date normalization, deterministic summary,
summary selection, deal-value extraction and generative-metadata
validation. Python strings are modelled as Lean `String` (lists of
characters); regular-expression matching is modelled by explicit
executable scanners with the same leftmost-match, alternation-order and
backtracking behaviour as the patterns in the source. Case folding is
modelled at the ASCII level. The two external text-generation calls are
modelled as explicit parameters (an oracle function for the summarizer,
a `Proposal` record for the metadata call), so theorems quantify over
every possible response of the external service.
-/

set_option maxRecDepth 100000

namespace NewsGen

/-- Substring test on character lists: `containsL pat hay = true` iff
`pat` occurs contiguously in `hay` (Python's `pat in hay`). -/
def containsL (pat : List Char) : List Char → Bool
  | [] => pat.isEmpty
  | c :: rest => pat.isPrefixOf (c :: rest) || containsL pat rest

/-- Case-insensitive (ASCII) match of pattern `pat` against the front of a
text list; on success returns the consumed text characters and the rest. -/
def ciTake : List Char → List Char → Option (List Char × List Char)
  | [], l => some ([], l)
  | _ :: _, [] => none
  | p :: ps, c :: cs =>
    if p.toLower = c.toLower then
      match ciTake ps cs with
      | some (m, r) => some (c :: m, r)
      | none => none
    else none

/-- Python `str.lower()` (ASCII case folding). -/
def lowerStr (s : String) : String := String.mk (s.data.map Char.toLower)

/-- Python `str.strip()`: remove leading and trailing whitespace. -/
def pyStripWs (l : List Char) : List Char :=
  ((l.dropWhile Char.isWhitespace).reverse.dropWhile Char.isWhitespace).reverse

/-- Python `str.strip(cs)`: remove leading and trailing characters drawn
from the set `cs`. -/
def pyStripChars (cs : List Char) (l : List Char) : List Char :=
  ((l.dropWhile (fun c => cs.contains c)).reverse.dropWhile
    (fun c => cs.contains c)).reverse

/-- Worker for `splitRuns`: split on maximal runs of delimiter characters,
dropping empty pieces (Python `str.split()` when the delimiter test is
whitespace). -/
def splitRunsGo (d : Char → Bool) (cur : List Char) : List Char → List (List Char)
  | [] => if cur.isEmpty then [] else [cur.reverse]
  | c :: rest =>
    if d c then
      if cur.isEmpty then splitRunsGo d [] rest
      else cur.reverse :: splitRunsGo d [] rest
    else splitRunsGo d (c :: cur) rest

def splitRuns (d : Char → Bool) (l : List Char) : List (List Char) :=
  splitRunsGo d [] l

/-- Python `" ".join(content.split())`: collapse all whitespace runs to
single spaces and trim the ends. -/
def collapseWsL (l : List Char) : List Char :=
  List.intercalate [' '] (splitRuns Char.isWhitespace l)

def collapseWs (s : String) : String := String.mk (collapseWsL s.data)

/-- Python `str.find`: index of the first occurrence of `pat`, if any. -/
def findIdx (pat : List Char) : List Char → Option Nat
  | [] => if pat.isEmpty then some 0 else none
  | c :: rest =>
    if pat.isPrefixOf (c :: rest) then some 0
    else (findIdx pat rest).map (· + 1)

/-- Fuel-driven worker for `pyReplace` (fuel bounds the scan length so the
definition is structurally recursive and computes in the kernel). -/
def replFuel (pat rep : List Char) : Nat → List Char → List Char
  | _, [] => []
  | 0, l => l
  | Nat.succ f, c :: rest =>
    if pat.isPrefixOf (c :: rest) then
      rep ++ replFuel pat rep f (rest.drop (pat.length - 1))
    else c :: replFuel pat rep f rest

/-- Python `str.replace(pat, rep)`: replace every non-overlapping
occurrence, scanning left to right. -/
def pyReplace (pat rep l : List Char) : List Char := replFuel pat rep l.length l

/-- Python `str.rfind(" ")`: index of the last space, if any. -/
def lastSpaceIdx : List Char → Option Nat
  | [] => none
  | c :: rest =>
    match lastSpaceIdx rest with
    | some i => some (i + 1)
    | none => if c = ' ' then some 0 else none

/-! ## Date handling (source lines 44-88) -/

def MONTH_MAP : List (String × String) :=
  [("Jan.", "Jan"), ("January", "Jan"),
   ("Feb.", "Feb"), ("February", "Feb"),
   ("Mar.", "Mar"), ("March", "Mar"),
   ("Apr.", "Apr"), ("April", "Apr"),
   ("May", "May"),
   ("Jun.", "Jun"), ("June", "Jun"),
   ("Jul.", "Jul"), ("July", "Jul"),
   ("Aug.", "Aug"), ("August", "Aug"),
   ("Sep.", "Sep"), ("Sept.", "Sep"), ("September", "Sep"),
   ("Oct.", "Oct"), ("October", "Oct"),
   ("Nov.", "Nov"), ("November", "Nov"),
   ("Dec.", "Dec"), ("December", "Dec")]

def normalize_month (m : String) : String :=
  match MONTH_MAP.lookup m with
  | some v => v
  | none => m

def isUpperAZ (c : Char) : Bool := 'A' ≤ c && c ≤ 'Z'
def isLowerAZ (c : Char) : Bool := 'a' ≤ c && c ≤ 'z'
def isDigit09 (c : Char) : Bool := '0' ≤ c && c ≤ '9'
def digitVal (c : Char) : Nat := c.toNat - '0'.toNat

/-- Tail of the date pattern after the day: `,[ ]*(\d{4})`. -/
def yearTail : List Char → Option String
  | ',' :: r =>
    (match r.dropWhile (· = ' ') with
     | a :: b :: c :: d :: _ =>
       if isDigit09 a && isDigit09 b && isDigit09 c && isDigit09 d then
         some (String.mk [a, b, c, d])
       else none
     | _ => none)
  | _ => none

/-- Middle of the date pattern: `[ ]+(\d{1,2})` followed by `yearTail`,
with the regex's greedy-then-backtrack behaviour on the 1-2 digit day. -/
def dayYearTail (l : List Char) : Option (Nat × String) :=
  if (l.takeWhile (· = ' ')).isEmpty then none
  else
    match l.dropWhile (· = ' ') with
    | d1 :: r2 =>
      if isDigit09 d1 then
        (match r2 with
         | d2 :: r3 =>
           if isDigit09 d2 then
             (yearTail r3).map (fun y => (10 * digitVal d1 + digitVal d2, y))
           else none
         | [] => none)
        <|> (yearTail r2).map (fun y => (digitVal d1, y))
      else none
    | [] => none

/-- One attempt at the month part `[A-Z][a-z]{2,9}\.?` with exactly `k`
lowercase letters, trying the optional trailing dot greedily. -/
def monthAttempt (c : Char) (rest : List Char) (k : Nat) :
    Option (String × Nat × String) :=
  let low := rest.take k
  let after := rest.drop k
  match after with
  | '.' :: a2 =>
    ((dayYearTail a2).map (fun (d, y) => (String.mk (c :: low ++ ['.']), d, y)))
    <|> ((dayYearTail after).map (fun (d, y) => (String.mk (c :: low), d, y)))
  | _ => (dayYearTail after).map (fun (d, y) => (String.mk (c :: low), d, y))

/-- Backtracking loop over the greedy quantifier `[a-z]{2,9}`: try `k`
lowercase letters, then `k - 1`, down to `2`. -/
def goK (c : Char) (rest : List Char) : Nat → Option (String × Nat × String)
  | 0 => none
  | 1 => none
  | Nat.succ (Nat.succ k) =>
    monthAttempt c rest (k + 2) <|> goK c rest (k + 1)

/-- Match of `([A-Z][a-z]{2,9}\.?)[ ]+(\d{1,2}),[ ]*(\d{4})` anchored at the
head of the list. -/
def dateMatchAt : List Char → Option (String × Nat × String)
  | [] => none
  | c :: rest =>
    if isUpperAZ c then
      goK c rest (min 9 (rest.takeWhile isLowerAZ).length)
    else none

/-- Search for the date pattern as `re.search` does: leftmost matching
position wins. -/
def dateSearchL : List Char → Option (String × Nat × String)
  | [] => none
  | c :: rest => dateMatchAt (c :: rest) <|> dateSearchL rest

/-- The f-string `f"{normalize_month(month_raw)} {int(day)}, {year}"`. -/
def formatDate (m : String) (d : Nat) (y : String) : String :=
  normalize_month m ++ " " ++ toString d ++ ", " ++ y

def extract_date_from_timestamp_list : List String → String
  | [] => ""
  | ts :: _ =>
    match dateSearchL ts.data with
    | some (m, d, y) => formatDate m d y
    | none => ""

def extract_date_from_content (content : String) : String :=
  match dateSearchL (collapseWsL content.data) with
  | some (m, d, y) => formatDate m d y
  | none => ""

/-- One raw input record: `title`, `content`, `url` and the free-text
`timestamp` list, as consumed by the pipeline. -/
structure Article where
  title : String
  content : String
  url : String
  timestamp : List String

def get_pretty_date (article : Article) : String :=
  let ts_date := extract_date_from_timestamp_list article.timestamp
  if ts_date = "" then extract_date_from_content article.content else ts_date

example : extract_date_from_timestamp_list ["Nov. 26, 2025"] = "Nov 26, 2025" := by decide
example : extract_date_from_timestamp_list ["November 3, 2025"] = "Nov 3, 2025" := by decide
example : extract_date_from_content "Sent   on May 7, 1999 ok" = "May 7, 1999" := by decide
example : extract_date_from_timestamp_list ["no date here"] = "" := by decide

/-! ## Fallback summary (source lines 92-119) -/

def strip_prnewswire_boilerplate (content : String) : String :=
  let text := collapseWsL content.data
  let marker := "/PRNewswire".data
  match findIdx marker text with
  | some idx =>
    (match findIdx ("--".data) (text.drop idx) with
     | some d => String.mk (pyStripWs (text.drop (idx + d + 2)))
     | none => String.mk (pyStripWs (text.drop (idx + marker.length))))
  | none => String.mk text

def headIsPunct : List Char → Bool
  | p :: _ => p == '.' || p == '!' || p == '?'
  | [] => false

/-- Scanner for `re.split(r"(?<=[.!?])\s+", core)`: a delimiter is a
maximal whitespace run whose preceding character is `.`, `!` or `?`. The
first argument records whether the scan is inside a delimiter run; the
second is the current piece, reversed. -/
def sentGo : Bool → List Char → List Char → List (List Char)
  | _, acc, [] => [acc.reverse]
  | true, acc, c :: rest =>
    if c.isWhitespace then sentGo true acc rest
    else sentGo false [c] rest
  | false, acc, c :: rest =>
    if c.isWhitespace && headIsPunct acc then acc.reverse :: sentGo true [] rest
    else sentGo false (c :: acc) rest

def sentSplit (l : List Char) : List (List Char) := sentGo false [] l

/-- Source lines 113-118: cut an over-long summary back to `max_chars`,
back off to the last space when its index is positive, and append `...`. -/
def truncate_summary (summary : String) (max_chars : Nat) : String :=
  if max_chars < summary.length then
    let short := summary.data.take max_chars
    let short2 :=
      match lastSpaceIdx short with
      | some last => if 0 < last then short.take last else short
      | none => short
    String.mk (short2 ++ ['.', '.', '.'])
  else summary

def simple_summary (content : String) (max_chars : Nat) : String :=
  let core := strip_prnewswire_boilerplate content
  if core = "" then ""
  else
    let sentences := sentSplit core.data
    let summary := String.mk (pyStripWs (List.intercalate [' '] (sentences.take 2)))
    truncate_summary summary max_chars

/-! ## Summary-title sanity check and selector (source lines 185-228) -/

def stripSet : List Char := [' ', ',', '.', '&', '(', ')', '/', '-']

/-- The comprehension on source lines 195-199: split the title on
whitespace, strip surrounding punctuation from each token, and keep the
stripped tokens of length at least 4. -/
def titleTokens (title : String) : List (List Char) :=
  ((splitRuns Char.isWhitespace title.data).map (pyStripChars stripSet)).filter
    (fun t => 4 ≤ t.length)

def summary_matches_title (summary title : String) : Bool :=
  if summary = "" ∨ title = "" then false
  else
    let summary_l := lowerStr summary
    let tokens := titleTokens title
    if tokens = [] then false
    else tokens.any (fun t => containsL (t.map Char.toLower) summary_l.data)

/-- Summary selector, with the external generative call modelled as an
oracle `ai : content → pretty_date → summary`. -/
def get_context_text (ai : String → String → String) (article : Article) : String :=
  let content := article.content
  let pretty_date := get_pretty_date article
  let title := article.title
  if content = "" then simple_summary content 400
  else
    let ai_line := ai content pretty_date
    if ai_line ≠ "" ∧ summary_matches_title ai_line title then ai_line
    else simple_summary content 400

example :
    simple_summary "(PRNewswire) -- One two. Three four. Five." 400 =
      "(PRNewswire) -- One two. Three four." := by decide
example :
    simple_summary "NYC, Nov. 3 /PRNewswire/ -- Acme buys Foo. It is big. More." 400 =
      "Acme buys Foo. It is big." := by decide
example : summary_matches_title "Acme completed a deal" "Acme Acquires Foo" = true := by decide
example : summary_matches_title "Totally unrelated text" "Acme Acquires Foo" = false := by decide

/-! ## Deal value extraction (source lines 232-265)

The euro and pound alternatives of the currency pattern are, in the
source file on disk, the character sequences U+201A U+00C7 U+00A8 and
U+00AC U+00A3 (a double-encoded euro sign and pound sign); the scanner
reproduces those exact characters. -/

def euroMoji : List Char := [Char.ofNat 0x201A, Char.ofNat 0xC7, Char.ofNat 0xA8]
def poundMoji : List Char := [Char.ofNat 0xAC, Char.ofNat 0xA3]

/-- The currency-marker alternation, in source order; `Rs\.?` is expanded
into its greedy backtracking order `Rs.` then `Rs`. -/
def currencyMarkers : List (List Char) :=
  ["USD".data, "US$".data, "$".data, "EUR".data, euroMoji,
   "GBP".data, poundMoji, "C$".data, "CAD".data, "INR".data,
   "Rs.".data, "Rs".data]

def magnitudeSuffixes : List (List Char) :=
  ["million".data, "billion".data, "bn".data, "mn".data,
   "m".data, "M".data, "B".data]

/-- The optional magnitude suffix: first alternative that matches
case-insensitively is consumed; otherwise nothing is. -/
def sufTry : List (List Char) → List Char → List Char
  | [], _ => []
  | s :: ss, l =>
    match ciTake s l with
    | some (mt, _) => mt
    | none => sufTry ss l

/-- After a matched currency marker:
`\s*[0-9][0-9,]*(?:\.\d+)?\s*(?:million|billion|bn|mn|m|M|B)?`. -/
def numTail (r : List Char) : Option (List Char) :=
  let ws1 := r.takeWhile Char.isWhitespace
  match r.dropWhile Char.isWhitespace with
  | d :: r2 =>
    if isDigit09 d then
      let digs := r2.takeWhile (fun c => isDigit09 c || c == ',')
      let r3 := r2.dropWhile (fun c => isDigit09 c || c == ',')
      let decPair :=
        match r3 with
        | '.' :: t =>
          if (t.takeWhile isDigit09).isEmpty then (([] : List Char), r3)
          else ('.' :: t.takeWhile isDigit09, t.dropWhile isDigit09)
        | _ => (([] : List Char), r3)
      let ws2 := decPair.2.takeWhile Char.isWhitespace
      let r5 := decPair.2.dropWhile Char.isWhitespace
      some (ws1 ++ d :: digs ++ decPair.1 ++ ws2 ++ sufTry magnitudeSuffixes r5)
    else none
  | [] => none

/-- Try the currency markers in alternation order at a fixed position. -/
def markersTry : List (List Char) → List Char → Option (List Char)
  | [], _ => none
  | m :: ms, l =>
    (match ciTake m l with
     | some (mt, r) =>
       (match numTail r with
        | some tail => some (mt ++ tail)
        | none => none)
     | none => none)
    <|> markersTry ms l

/-- `re.search` for the deal-value pattern: leftmost position wins, and at
each position the marker alternatives are tried in pattern order. -/
def dvSearch : List Char → Option (List Char)
  | [] => none
  | c :: rest => markersTry currencyMarkers (c :: rest) <|> dvSearch rest

def extract_deal_value_from_text (content : String) : String :=
  if content = "" then "NA"
  else
    let text := collapseWsL content.data
    match dvSearch text with
    | some g =>
      let v0 := pyStripWs g
      let v1 := pyReplace ("US$".data) ("USD ".data) v0
      let v2 := pyReplace ("$".data) ("USD ".data) v1
      String.mk (collapseWsL v2)
    | none => "NA"

example : extract_deal_value_from_text "worth USD 600 million today" = "USD 600 million" := by decide
example : extract_deal_value_from_text "paid $140 million cash" = "USD 140 million" := by decide
example : extract_deal_value_from_text "about EUR 2.5 billion" = "EUR 2.5 billion" := by decide
example : extract_deal_value_from_text "C$3.4 billion" = "CUSD 3.4 billion" := by decide
example : extract_deal_value_from_text "nothing here" = "NA" := by decide
example : extract_deal_value_from_text "US$99 mn" = "USD 99 mn" := by decide

/-! ## Generative metadata extraction and validation (source lines 269-440)

The external call is modelled as a `Proposal`: for each of the ten JSON
keys, `none` stands for a missing key or JSON `null` (including the
all-missing proposal that the source substitutes on any transport or
parse failure), `some v` for a string value. -/

structure Proposal where
  investor_or_pe : Option String
  buyer : Option String
  seller : Option String
  advisor_firm : Option String
  buyer_lead_name : Option String
  buyer_lead_role : Option String
  investor_lead_name : Option String
  investor_lead_role : Option String
  seller_lead_name : Option String
  seller_lead_role : Option String

/-- The dictionary returned by `ai_extract_deal_metadata`. -/
structure DealMeta where
  deal_value : String
  deal_advisor : String
  investor_or_pe : String
  buyer : String
  seller : String
  buyer_lead_name : String
  buyer_lead_role : String
  investor_lead_name : String
  investor_lead_role : String
  seller_lead_name : String
  seller_lead_role : String

/-- The all-sentinel record returned for empty content. -/
def NAmeta : DealMeta :=
  ⟨"NA", "NA", "NA", "NA", "NA", "NA", "NA", "NA", "NA", "NA", "NA"⟩

/-- Source lines 355-359: empty or whitespace-only proposals (and missing
keys, via the `data.get(key, "NA")` default) become `"NA"`; other values
are stripped of surrounding whitespace. -/
def clean : Option String → String
  | none => "NA"
  | some v =>
    if v = "" then "NA"
    else
      let s := String.mk (pyStripWs v.data)
      if s = "" then "NA" else s

/-- The `content_norm` of source line 296: whitespace-collapsed,
lower-cased content. -/
def content_norm_of (content : String) : String := lowerStr (collapseWs content)

/-- Fuel-driven scanner for `re.split(r"&|,|/| and ", name)` (empty pieces
are dropped here; the source drops them via the `if p.strip()` filter). -/
def orgSplitF : Nat → List Char → List Char → List (List Char)
  | _, acc, [] => [acc.reverse]
  | 0, acc, l => [acc.reverse ++ l]
  | Nat.succ f, acc, c :: rest =>
    if c == '&' || c == ',' || c == '/' then acc.reverse :: orgSplitF f [] rest
    else if c == ' ' && ("and ".data.isPrefixOf rest) then
      acc.reverse :: orgSplitF f [] (rest.drop 4)
    else orgSplitF f (c :: acc) rest

/-- The parts an org-like proposal is split into before validation:
split on `&`, `,`, `/` or `" and "`, strip each part, drop empties. -/
def orgParts (name : String) : List String :=
  ((orgSplitF name.data.length [] name.data).map
    (fun p => String.mk (pyStripWs p))).filter (fun s => s ≠ "")

def validate_org (content_norm name : String) : String :=
  if name = "NA" then "NA"
  else if (orgParts name).any (fun p => containsL (lowerStr p).data content_norm.data)
  then name
  else "NA"

/-- Tokens of a person-name proposal: split on whitespace, keep tokens
longer than 2 characters. -/
def personTokens (name : String) : List String :=
  ((splitRuns Char.isWhitespace name.data).map String.mk).filter
    (fun t => 2 < t.length)

def validate_person (content_norm name : String) : String :=
  if name = "NA" then "NA"
  else if (personTokens name).any (fun t => containsL (lowerStr t).data content_norm.data)
  then name
  else "NA"

def roleDelim (c : Char) : Bool :=
  c.isWhitespace || c == '/' || c == '&' || c == ',' || c == '-'

/-- Tokens of a role proposal: split on `[\s/&,-]+`, keep tokens longer
than 2 characters. -/
def roleTokens (role : String) : List String :=
  ((splitRuns roleDelim role.data).map String.mk).filter (fun t => 2 < t.length)

def validate_role (content_norm role : String) : String :=
  if role = "NA" then "NA"
  else if (roleTokens role).any (fun t => containsL (lowerStr t).data content_norm.data)
  then role
  else "NA"

/-- The advisor preference chain (source lines 417-426):
investor → advisor firm → buyer → seller → `"NA"`. -/
def deal_advisor_of (investor_or_pe advisor_firm buyer seller : String) : String :=
  if investor_or_pe ≠ "NA" then investor_or_pe
  else if advisor_firm ≠ "NA" then advisor_firm
  else if buyer ≠ "NA" then buyer
  else if seller ≠ "NA" then seller
  else "NA"

def ai_extract_deal_metadata (p : Proposal) (content : String) : DealMeta :=
  if content = "" then NAmeta
  else
    let cn := content_norm_of content
    let investor_or_pe := validate_org cn (clean p.investor_or_pe)
    let advisor_firm := validate_org cn (clean p.advisor_firm)
    let buyer := validate_org cn (clean p.buyer)
    let seller := validate_org cn (clean p.seller)
    { deal_value := extract_deal_value_from_text content
      deal_advisor := deal_advisor_of investor_or_pe advisor_firm buyer seller
      investor_or_pe := investor_or_pe
      buyer := buyer
      seller := seller
      buyer_lead_name := validate_person cn (clean p.buyer_lead_name)
      buyer_lead_role := validate_role cn (clean p.buyer_lead_role)
      investor_lead_name := validate_person cn (clean p.investor_lead_name)
      investor_lead_role := validate_role cn (clean p.investor_lead_role)
      seller_lead_name := validate_person cn (clean p.seller_lead_name)
      seller_lead_role := validate_role cn (clean p.seller_lead_role) }

example : validate_org "acme corp buys foo" "Acme & Bar" = "Acme & Bar" := by decide
example : validate_org "acme corp buys foo" "Zeta / Omega" = "NA" := by decide
example : validate_person "jane doe, ceo of acme" "Jane Q. Doe" = "Jane Q. Doe" := by decide
example : validate_person "someone else entirely speaks" "Jane Doe" = "NA" := by decide
example : validate_role "she is the managing partner there" "Managing Partner" =
    "Managing Partner" := by decide
example : validate_role "she is the boss" "CEO" = "NA" := by decide
example : deal_advisor_of "NA" "Goldman" "Acme" "Foo" = "Goldman" := by decide

/-! ## Concrete scenario inputs -/

/-- The end-to-end scenario content from the testable properties. -/
def acmeContent : String :=
  "(PRNewswire) -- Acme Corp acquired Foo Inc for USD 240 million. Jane Doe, CEO of Acme, said the deal expands reach."

def acmeArticle : Article := ⟨"Acme Acquires Foo", acmeContent, "", []⟩

/-- Oracle simulating an unavailable generative service: the source's
exception handler turns every failure into the empty string. -/
def failAI : String → String → String := fun _ _ => ""

/-- Article whose first timestamp entry has no date, whose second entry
does, and whose content holds a different date. -/
def laterTsArticle : Article :=
  ⟨"", "Dec. 1, 2024", "", ["no date here", "Nov. 26, 2025"]⟩

/-! ## Validator case-analysis lemmas -/

lemma validate_org_cases (cn v : String) :
    validate_org cn v = "NA" ∨
    (validate_org cn v = v ∧
      ∃ s ∈ orgParts v, containsL (lowerStr s).data cn.data = true) := by
  unfold validate_org
  by_cases h1 : v = "NA"
  · rw [if_pos h1]; exact Or.inl rfl
  · rw [if_neg h1]
    by_cases h2 : (orgParts v).any (fun p => containsL (lowerStr p).data cn.data) = true
    · rw [if_pos h2]; exact Or.inr ⟨rfl, List.any_eq_true.mp h2⟩
    · rw [if_neg h2]; exact Or.inl rfl

lemma validate_person_cases (cn v : String) :
    validate_person cn v = "NA" ∨
    (validate_person cn v = v ∧
      ∃ s ∈ personTokens v, containsL (lowerStr s).data cn.data = true) := by
  unfold validate_person
  by_cases h1 : v = "NA"
  · rw [if_pos h1]; exact Or.inl rfl
  · rw [if_neg h1]
    by_cases h2 : (personTokens v).any (fun t => containsL (lowerStr t).data cn.data) = true
    · rw [if_pos h2]; exact Or.inr ⟨rfl, List.any_eq_true.mp h2⟩
    · rw [if_neg h2]; exact Or.inl rfl

lemma validate_role_cases (cn v : String) :
    validate_role cn v = "NA" ∨
    (validate_role cn v = v ∧
      ∃ s ∈ roleTokens v, containsL (lowerStr s).data cn.data = true) := by
  unfold validate_role
  by_cases h1 : v = "NA"
  · rw [if_pos h1]; exact Or.inl rfl
  · rw [if_neg h1]
    by_cases h2 : (roleTokens v).any (fun t => containsL (lowerStr t).data cn.data) = true
    · rw [if_pos h2]; exact Or.inr ⟨rfl, List.any_eq_true.mp h2⟩
    · rw [if_neg h2]; exact Or.inl rfl

/-! ## Claim theorems -/

/-- C2: refuted as stated and traced to a code slip. The extractor's
docstring promises values that "actually appear in the text" and lists
`C$3.4 billion` as a supported pattern, but the unconditional
`value.replace("$", "USD ")` on source line 262 turns a matched
`C$3.4 billion` into `CUSD 3.4 billion` — a string beginning with none of
the documented currency tokens and not occurring in the content. -/
theorem deal_value_cdollar_mangled :
    extract_deal_value_from_text "C$3.4 billion" = "CUSD 3.4 billion" := by decide

/-- C4: refuted as stated and traced to a code slip. In the source file on
disk the euro and pound alternatives of the currency pattern are the
double-encoded character sequences U+201A U+00C7 U+00A8 and U+00AC U+00A3
rather than `€` and `£`, so content quoting `€2.5 billion` or
`£3 million` yields the sentinel `"NA"` instead of a match. -/
theorem deal_value_euro_pound_unmatched :
    extract_deal_value_from_text "The deal is worth €2.5 billion in cash" = "NA" ∧
    extract_deal_value_from_text "The deal is worth £3 million in cash" = "NA" := by
  exact ⟨by decide, by decide⟩

/-- C7: confirmed. A first timestamp entry `"Nov. 26, 2025"` normalizes to
exactly `"Nov 26, 2025"`, and `"November 3, 2025"` to `"Nov 3, 2025"`,
whatever the rest of the article holds. -/
theorem date_round_trip : ∀ t c u : String,
    get_pretty_date ⟨t, c, u, ["Nov. 26, 2025"]⟩ = "Nov 26, 2025" ∧
    get_pretty_date ⟨t, c, u, ["November 3, 2025"]⟩ = "Nov 3, 2025" := by
  intro t c u
  have h1 : extract_date_from_timestamp_list ["Nov. 26, 2025"] = "Nov 26, 2025" := by decide
  have h2 : extract_date_from_timestamp_list ["November 3, 2025"] = "Nov 3, 2025" := by decide
  constructor
  · simp only [get_pretty_date, h1]
    rw [if_neg (by decide : ¬("Nov 26, 2025" = ("" : String)))]
  · simp only [get_pretty_date, h2]
    rw [if_neg (by decide : ¬("Nov 3, 2025" = ("" : String)))]

/-- C6, counterexample: the claim says content is consulted only when no
timestamp entry yields a date match. Here the second timestamp entry
yields `"Nov 26, 2025"`, yet the result is the content's `"Dec 1, 2024"`:
only the first entry is ever examined. -/
theorem pretty_date_ignores_later_timestamps :
    get_pretty_date laterTsArticle = "Dec 1, 2024" ∧
    extract_date_from_timestamp_list ["Nov. 26, 2025"] = "Nov 26, 2025" ∧
    get_pretty_date laterTsArticle ≠ "Nov 26, 2025" := by
  exact ⟨by decide, by decide, by decide⟩

/-- C6, amended: `get_pretty_date` tries only the FIRST timestamp entry
(later entries never affect the result), falls back to the
whitespace-collapsed content exactly when the timestamp list is empty or
its first entry yields no date match, and returns the content result
(possibly `""`) in that case. -/
theorem pretty_date_first_entry_only :
    ∀ (t c u fst : String) (rest rest2 : List String),
    get_pretty_date ⟨t, c, u, fst :: rest⟩ = get_pretty_date ⟨t, c, u, fst :: rest2⟩ ∧
    get_pretty_date ⟨t, c, u, fst :: rest⟩ =
      (if extract_date_from_timestamp_list [fst] = ""
       then extract_date_from_content c
       else extract_date_from_timestamp_list [fst]) ∧
    get_pretty_date ⟨t, c, u, ([] : List String)⟩ = extract_date_from_content c := by
  intro t c u fst rest rest2
  exact ⟨rfl, rfl, rfl⟩

/-- C8: confirmed. On empty content every extractor short-circuits to its
sentinel: the date and summary are `""`, the deal value is `"NA"`, the
metadata record has all eleven fields `"NA"` for EVERY possible proposal
(so the result does not depend on the external call), and the context is
`""` for EVERY summarizer oracle (so the generative summarizer's answer is
irrelevant). -/
theorem empty_content_degrades :
    ∀ (p : Proposal) (ai : String → String → String)
      (t u : String) (ts : List String),
    get_pretty_date ⟨t, "", u, []⟩ = "" ∧
    simple_summary "" 400 = "" ∧
    extract_deal_value_from_text "" = "NA" ∧
    ai_extract_deal_metadata p "" = NAmeta ∧
    get_context_text ai ⟨t, "", u, ts⟩ = "" := by
  intro p ai t u ts
  exact ⟨rfl, rfl, rfl, rfl, rfl⟩

/-- C9: confirmed. Each validator returns either its argument verbatim or
the sentinel `"NA"`, and consequently every org/person/role field of the
metadata record is verbatim the cleaned proposal value or `"NA"`. -/
theorem validation_identity_or_sentinel :
    ∀ (cn v : String) (p : Proposal) (content : String),
    (validate_org cn v = v ∨ validate_org cn v = "NA") ∧
    (validate_person cn v = v ∨ validate_person cn v = "NA") ∧
    (validate_role cn v = v ∨ validate_role cn v = "NA") ∧
    ((ai_extract_deal_metadata p content).investor_or_pe = clean p.investor_or_pe ∨
      (ai_extract_deal_metadata p content).investor_or_pe = "NA") ∧
    ((ai_extract_deal_metadata p content).buyer = clean p.buyer ∨
      (ai_extract_deal_metadata p content).buyer = "NA") ∧
    ((ai_extract_deal_metadata p content).seller = clean p.seller ∨
      (ai_extract_deal_metadata p content).seller = "NA") ∧
    ((ai_extract_deal_metadata p content).buyer_lead_name = clean p.buyer_lead_name ∨
      (ai_extract_deal_metadata p content).buyer_lead_name = "NA") ∧
    ((ai_extract_deal_metadata p content).buyer_lead_role = clean p.buyer_lead_role ∨
      (ai_extract_deal_metadata p content).buyer_lead_role = "NA") ∧
    ((ai_extract_deal_metadata p content).investor_lead_name = clean p.investor_lead_name ∨
      (ai_extract_deal_metadata p content).investor_lead_name = "NA") ∧
    ((ai_extract_deal_metadata p content).investor_lead_role = clean p.investor_lead_role ∨
      (ai_extract_deal_metadata p content).investor_lead_role = "NA") ∧
    ((ai_extract_deal_metadata p content).seller_lead_name = clean p.seller_lead_name ∨
      (ai_extract_deal_metadata p content).seller_lead_name = "NA") ∧
    ((ai_extract_deal_metadata p content).seller_lead_role = clean p.seller_lead_role ∨
      (ai_extract_deal_metadata p content).seller_lead_role = "NA") := by
  intro cn v p content
  have horg : ∀ cn' v' : String, validate_org cn' v' = v' ∨ validate_org cn' v' = "NA" := by
    intro cn' v'
    rcases validate_org_cases cn' v' with h | ⟨h, _⟩
    · exact Or.inr h
    · exact Or.inl h
  have hper : ∀ cn' v' : String, validate_person cn' v' = v' ∨ validate_person cn' v' = "NA" := by
    intro cn' v'
    rcases validate_person_cases cn' v' with h | ⟨h, _⟩
    · exact Or.inr h
    · exact Or.inl h
  have hrol : ∀ cn' v' : String, validate_role cn' v' = v' ∨ validate_role cn' v' = "NA" := by
    intro cn' v'
    rcases validate_role_cases cn' v' with h | ⟨h, _⟩
    · exact Or.inr h
    · exact Or.inl h
  refine ⟨horg cn v, hper cn v, hrol cn v, ?_, ?_, ?_, ?_, ?_, ?_, ?_, ?_, ?_⟩ <;>
    · by_cases hc : content = ""
      · subst hc; exact Or.inr rfl
      · simp only [ai_extract_deal_metadata, if_neg hc]
        first
          | exact horg _ _
          | exact hper _ _
          | exact hrol _ _

/-- Length of an over-long truncated summary: at most the threshold plus
the three-character ellipsis. -/
lemma truncate_summary_length (s : String) (m : Nat) :
    (truncate_summary s m).length ≤ m + 3 := by
  unfold truncate_summary
  by_cases h : m < s.length
  · rw [if_pos h]
    have hmk : ∀ l : List Char, (String.mk l).length = l.length := fun _ => rfl
    rw [hmk]
    rw [List.length_append]
    have hshort : (s.data.take m).length ≤ m := by
      rw [List.length_take]; exact min_le_left _ _
    have h2 : (match lastSpaceIdx (s.data.take m) with
        | some last => if 0 < last then (s.data.take m).take last else s.data.take m
        | none => s.data.take m).length ≤ (s.data.take m).length := by
      cases hls : lastSpaceIdx (s.data.take m) with
      | none => exact le_refl _
      | some last =>
        by_cases hpos : 0 < last
        · simp only [if_pos hpos]
          rw [List.length_take]
          exact min_le_right _ _
        · simp only [if_neg hpos]
          exact le_refl _
    have := le_trans h2 hshort
    simp only [List.length_cons, List.length_nil]
    omega
  · rw [if_neg h]
    omega

/-- C10: confirmed. `simple_summary` with the 400-character threshold never
returns more than 403 characters: an over-long two-sentence summary is cut
to at most 400 characters (backing off to the last whitespace when its
index is positive) before the 3-character ellipsis is appended. -/
theorem simple_summary_length_bound :
    ∀ content : String, (simple_summary content 400).length ≤ 403 := by
  intro content
  unfold simple_summary
  by_cases h : strip_prnewswire_boilerplate content = ""
  · rw [if_pos h]; decide
  · rw [if_neg h]
    exact truncate_summary_length _ 400

/-! ## Attestation (claim C1) -/

/-- An org-like value is attested in `content`: some part (split on
`&`, `,`, `/`, `" and "`, stripped) occurs lower-cased as a substring of
the whitespace-collapsed, lower-cased content. -/
def orgAttested (content v : String) : Prop :=
  ∃ s ∈ orgParts v, containsL (lowerStr s).data (content_norm_of content).data = true

/-- A person name is attested: some whitespace token longer than 2
characters occurs lower-cased in the normalized content. -/
def personAttested (content v : String) : Prop :=
  ∃ s ∈ personTokens v, containsL (lowerStr s).data (content_norm_of content).data = true

/-- A role is attested: some token (split on whitespace, `/`, `&`, `,`,
`-`) longer than 2 characters occurs lower-cased in the normalized
content. -/
def roleAttested (content v : String) : Prop :=
  ∃ s ∈ roleTokens v, containsL (lowerStr s).data (content_norm_of content).data = true

lemma validate_org_na_or_attested (content v : String) :
    validate_org (content_norm_of content) v = "NA" ∨
    orgAttested content (validate_org (content_norm_of content) v) := by
  rcases validate_org_cases (content_norm_of content) v with h | ⟨heq, hex⟩
  · exact Or.inl h
  · right; rw [heq]; exact hex

lemma validate_person_na_or_attested (content v : String) :
    validate_person (content_norm_of content) v = "NA" ∨
    personAttested content (validate_person (content_norm_of content) v) := by
  rcases validate_person_cases (content_norm_of content) v with h | ⟨heq, hex⟩
  · exact Or.inl h
  · right; rw [heq]; exact hex

lemma validate_role_na_or_attested (content v : String) :
    validate_role (content_norm_of content) v = "NA" ∨
    roleAttested content (validate_role (content_norm_of content) v) := by
  rcases validate_role_cases (content_norm_of content) v with h | ⟨heq, hex⟩
  · exact Or.inl h
  · right; rw [heq]; exact hex

/-- The advisor preference chain only ever returns one of its four
arguments or `"NA"`. -/
lemma deal_advisor_of_cases (P : String → Prop) (hNA : P "NA") (a b c d : String)
    (ha : P a) (hb : P b) (hc : P c) (hd : P d) :
    P (deal_advisor_of a b c d) := by
  unfold deal_advisor_of
  split
  · exact ha
  · split
    · exact hb
    · split
      · exact hc
      · split
        · exact hd
        · exact hNA

/-- Every field of a metadata record is the sentinel or attested in the
content, with the tokenization appropriate to its kind. -/
def MetaAttested (content : String) (r : DealMeta) : Prop :=
  (r.investor_or_pe = "NA" ∨ orgAttested content r.investor_or_pe) ∧
  (r.buyer = "NA" ∨ orgAttested content r.buyer) ∧
  (r.seller = "NA" ∨ orgAttested content r.seller) ∧
  (r.deal_advisor = "NA" ∨ orgAttested content r.deal_advisor) ∧
  (r.buyer_lead_name = "NA" ∨ personAttested content r.buyer_lead_name) ∧
  (r.investor_lead_name = "NA" ∨ personAttested content r.investor_lead_name) ∧
  (r.seller_lead_name = "NA" ∨ personAttested content r.seller_lead_name) ∧
  (r.buyer_lead_role = "NA" ∨ roleAttested content r.buyer_lead_role) ∧
  (r.investor_lead_role = "NA" ∨ roleAttested content r.investor_lead_role) ∧
  (r.seller_lead_role = "NA" ∨ roleAttested content r.seller_lead_role)

/-- C1: confirmed. For every content string and every metadata proposal,
each org, person-name and role field of the validated output — including
the derived `deal_advisor` and the internally validated advisor firm — is
either the sentinel `"NA"` or a value one of whose parts/tokens occurs
lower-cased as a substring of the whitespace-collapsed, lower-cased
content. No unattested value survives validation. -/
theorem attestation_invariant :
    ∀ (p : Proposal) (content : String),
    MetaAttested content (ai_extract_deal_metadata p content) ∧
    (validate_org (content_norm_of content) (clean p.advisor_firm) = "NA" ∨
      orgAttested content (validate_org (content_norm_of content) (clean p.advisor_firm))) := by
  intro p content
  refine ⟨?_, validate_org_na_or_attested content (clean p.advisor_firm)⟩
  unfold MetaAttested
  by_cases hc : content = ""
  · subst hc
    exact ⟨Or.inl rfl, Or.inl rfl, Or.inl rfl, Or.inl rfl, Or.inl rfl,
           Or.inl rfl, Or.inl rfl, Or.inl rfl, Or.inl rfl, Or.inl rfl⟩
  · simp only [ai_extract_deal_metadata, if_neg hc]
    refine ⟨validate_org_na_or_attested content (clean p.investor_or_pe),
            validate_org_na_or_attested content (clean p.buyer),
            validate_org_na_or_attested content (clean p.seller),
            ?_,
            validate_person_na_or_attested content (clean p.buyer_lead_name),
            validate_person_na_or_attested content (clean p.investor_lead_name),
            validate_person_na_or_attested content (clean p.seller_lead_name),
            validate_role_na_or_attested content (clean p.buyer_lead_role),
            validate_role_na_or_attested content (clean p.investor_lead_role),
            validate_role_na_or_attested content (clean p.seller_lead_role)⟩
    exact deal_advisor_of_cases (fun x => x = "NA" ∨ orgAttested content x)
      (Or.inl rfl) _ _ _ _
      (validate_org_na_or_attested content (clean p.investor_or_pe))
      (validate_org_na_or_attested content (clean p.advisor_firm))
      (validate_org_na_or_attested content (clean p.buyer))
      (validate_org_na_or_attested content (clean p.seller))

/-! ## Summary selector (claim C5) -/

/-- The title-relevance check, characterized the way the spec states it:
true iff the summary is non-empty and some stripped title token of length
at least 4 occurs case-insensitively in the summary. -/
lemma summary_matches_title_iff (s t : String) :
    summary_matches_title s t = true ↔
    (s ≠ "" ∧ ∃ tok ∈ titleTokens t,
      containsL (tok.map Char.toLower) (lowerStr s).data = true) := by
  constructor
  · intro h
    simp only [summary_matches_title] at h
    by_cases h1 : s = "" ∨ t = ""
    · rw [if_pos h1] at h; exact absurd h (by simp)
    · rw [if_neg h1] at h
      by_cases h2 : titleTokens t = []
      · rw [if_pos h2] at h; exact absurd h (by simp)
      · rw [if_neg h2] at h
        push_neg at h1
        exact ⟨h1.1, List.any_eq_true.mp h⟩
  · rintro ⟨hs, tok, htok, hcon⟩
    simp only [summary_matches_title]
    have ht : t ≠ "" := by
      intro h
      subst h
      have hnil : titleTokens "" = [] := rfl
      rw [hnil] at htok
      exact absurd htok (List.not_mem_nil tok)
    rw [if_neg (by push_neg; exact ⟨hs, ht⟩)]
    rw [if_neg (List.ne_nil_of_mem htok)]
    exact List.any_eq_true.mpr ⟨tok, htok, hcon⟩

/-- C5: confirmed. The chosen context is the generative summary exactly
when the content is non-empty, the generative call returned a non-empty
string, and that string contains (case-insensitively) at least one title
token of length at least 4 after stripping surrounding punctuation;
otherwise — in particular for an empty generative summary or an empty
title — it is the deterministic summary of the same content. -/
theorem context_selector_spec :
    ∀ (ai : String → String → String) (a : Article),
    get_context_text ai a =
      if a.content ≠ "" ∧ ai a.content (get_pretty_date a) ≠ "" ∧
         (∃ tok ∈ titleTokens a.title,
           containsL (tok.map Char.toLower)
             (lowerStr (ai a.content (get_pretty_date a))).data = true)
      then ai a.content (get_pretty_date a)
      else simple_summary a.content 400 := by
  intro ai a
  simp only [get_context_text]
  by_cases hc : a.content = ""
  · rw [if_pos hc, if_neg (fun h => h.1 hc)]
  · rw [if_neg hc]
    by_cases hai : ai a.content (get_pretty_date a) = ""
    · rw [if_neg (fun h => h.1 hai), if_neg (fun h => h.2.1 hai)]
    · by_cases hm : summary_matches_title (ai a.content (get_pretty_date a)) a.title = true
      · have hex := (summary_matches_title_iff _ _).mp hm
        rw [if_pos ⟨hai, hm⟩, if_pos ⟨hc, hai, hex.2⟩]
      · rw [if_neg (fun h => hm h.2),
            if_neg (fun h => hm ((summary_matches_title_iff _ _).mpr ⟨h.2.1, h.2.2⟩))]

/-! ## End-to-end scenario (claim C3) -/

/-- C3, counterexample: on the scenario content the deal value is indeed
`"USD 240 million"`, but with the generative call failing the context is
NOT the two sentences with the boilerplate prefix stripped: the stripper
looks for the marker `/PRNewswire` (with slash), which this content —
containing only `(PRNewswire)` — lacks, so nothing is stripped. -/
theorem acme_context_not_stripped :
    ¬(extract_deal_value_from_text acmeContent = "USD 240 million" ∧
      get_context_text failAI acmeArticle =
        "Acme Corp acquired Foo Inc for USD 240 million. Jane Doe, CEO of Acme, said the deal expands reach.") := by
  decide

/-- C3, amended: deal value `"USD 240 million"`, and on generative failure
the context equals the first two sentences UNSTRIPPED — here the whole
content, still carrying its `"(PRNewswire) -- "` prefix, because the
boilerplate stripper only fires on the slash-delimited `/PRNewswire`
marker. -/
theorem acme_scenario_amended :
    extract_deal_value_from_text acmeContent = "USD 240 million" ∧
    get_context_text failAI acmeArticle = acmeContent := by
  exact ⟨by decide, by decide⟩

end NewsGen
